import Mathlib

/-!
Shallow embedding of the fcos-policy-engine decision core
(src/fcos-policy-engine/src/main.rs): wariness computation, population
tracking, and the graph policy pipeline, together with theorems settling
the specification claims.

Floating-point values are modelled by an inductive type with NaN, signed
infinities, and exact rational finite values.  Every float operation the
engine performs on the paths under scrutiny (parsing, max/min clamping,
and comparison against thresholds) is order-based and exact, so binary
rounding of decimal literals and of the u64-to-f64 cast is not modelled;
the claims under verification are invariant under that rounding.
-/

namespace Fcos

/-- Model of a Rust f64 value: NaN, an infinity with a sign bit, or an
exact finite rational. -/
inductive F64 where
  | nan : F64
  | inf (neg : Bool) : F64
  | finite (val : ℚ) : F64
deriving DecidableEq

/-- Rust f64 max semantics: when one operand is NaN the other is
returned; otherwise the numerically larger operand. -/
def F64.fmax : F64 → F64 → F64
  | .nan, b => b
  | a, .nan => a
  | .inf false, _ => .inf false
  | _, .inf false => .inf false
  | .inf true, b => b
  | a, .inf true => a
  | .finite x, .finite y => .finite (max x y)

/-- Rust f64 min semantics: when one operand is NaN the other is
returned; otherwise the numerically smaller operand. -/
def F64.fmin : F64 → F64 → F64
  | .nan, b => b
  | a, .nan => a
  | .inf true, _ => .inf true
  | _, .inf true => .inf true
  | .inf false, b => b
  | a, .inf false => a
  | .finite x, .finite y => .finite (min x y)

/-- The rational carried by a finite value, and 0 otherwise.  Used only
where a finite value is separately proved to be present. -/
def F64.toRat : F64 → ℚ
  | .finite v => v
  | _ => 0

/-- Numeric value of a list of ASCII decimal digits. -/
def digitsToNat (ds : List Char) : ℕ :=
  ds.foldl (fun acc c => acc * 10 + (c.toNat - 48)) 0

/-- Splits a character list into its leading run of ASCII digits and the
remainder. -/
def takeDigitSpan : List Char → List Char × List Char
  | [] => ([], [])
  | c :: cs =>
    if c.isDigit then
      let p := takeDigitSpan cs
      (c :: p.1, p.2)
    else ([], c :: cs)

/-- Mantissa part of the Rust f64 grammar:
Digit+ | Digit+ . Digit* | Digit* . Digit+ — returns the combined digit
string read as a natural number together with the number of fractional
digits (so the mantissa value is the first component divided by ten to
the second), and the unconsumed remainder. -/
def parseMantissa (cs : List Char) : Option ((ℕ × ℕ) × List Char) :=
  let ip := takeDigitSpan cs
  match ip.2 with
  | '.' :: r2 =>
    let fp := takeDigitSpan r2
    if ip.1.isEmpty && fp.1.isEmpty then none
    else some ((digitsToNat (ip.1 ++ fp.1), fp.1.length), fp.2)
  | _ => if ip.1.isEmpty then none else some ((digitsToNat ip.1, 0), ip.2)

/-- Exponent part of the Rust f64 grammar: either nothing, or
(e|E) Sign? Digit+ consuming the whole remainder. -/
def parseExpPart : List Char → Option ℤ
  | [] => some 0
  | c :: rest =>
    if c = 'e' ∨ c = 'E' then
      let sr : Bool × List Char :=
        match rest with
        | '+' :: r => (false, r)
        | '-' :: r => (true, r)
        | r => (false, r)
      let ds := takeDigitSpan sr.2
      if ds.1.isEmpty ∨ ¬ ds.2.isEmpty then none
      else some (if sr.1 then -(digitsToNat ds.1 : ℤ) else (digitsToNat ds.1 : ℤ))
    else none

/-- Number production of the Rust f64 grammar: mantissa followed by an
optional exponent, consuming the whole input; the sign of the whole
float literal is applied to the result.  The exact decimal value
sign * digits * 10 ^ (exponent - fractional-length) is assembled as a
single rational numeral. -/
def parseNumber (neg : Bool) (cs : List Char) : Option ℚ :=
  match parseMantissa cs with
  | none => none
  | some m =>
    match parseExpPart m.2 with
    | none => none
    | some e =>
      let net : ℤ := e - (m.1.2 : ℤ)
      if 0 ≤ net then
        let mag : ℕ := m.1.1 * 10 ^ net.toNat
        some (mkRat (if neg then -(mag : ℤ) else (mag : ℤ)) 1)
      else
        some (mkRat (if neg then -(m.1.1 : ℤ) else (m.1.1 : ℤ)) (10 ^ (-net).toNat))

/-- Model of Rust str::parse::<f64>:
Float ::= Sign? ( inf | infinity | nan | Number ), the words matched
case-insensitively.  Finite results carry the exact decimal value. -/
def parseF64 (s : String) : Option F64 :=
  let cs := s.data
  let sb : Bool × List Char :=
    match cs with
    | '+' :: r => (false, r)
    | '-' :: r => (true, r)
    | r => (false, r)
  let low := sb.2.map Char.toLower
  if low = "inf".data ∨ low = "infinity".data then some (.inf sb.1)
  else if low = "nan".data then some .nan
  else
    match parseNumber sb.1 sb.2 with
    | some q => some (.finite q)
    | none => none

/-- UTF-8 encoding of a single character, as byte values. -/
def charUtf8 (c : Char) : List ℕ :=
  let n := c.toNat
  if n < 0x80 then [n]
  else if n < 0x800 then
    [0xC0 ||| (n >>> 6), 0x80 ||| (n &&& 0x3F)]
  else if n < 0x10000 then
    [0xE0 ||| (n >>> 12), 0x80 ||| ((n >>> 6) &&& 0x3F), 0x80 ||| (n &&& 0x3F)]
  else
    [0xF0 ||| (n >>> 18), 0x80 ||| ((n >>> 12) &&& 0x3F),
     0x80 ||| ((n >>> 6) &&& 0x3F), 0x80 ||| (n &&& 0x3F)]

/-- UTF-8 bytes of a string, as Rust str::as_bytes yields them. -/
def strBytes (s : String) : List ℕ :=
  (s.data.map charUtf8).flatten

/-- Reduction modulo 2^64, the u64 wrap-around. -/
def wrap64 (x : ℕ) : ℕ := x % 2 ^ 64

/-- 64-bit left rotation (operand assumed below 2^64). -/
def rotl64 (x n : ℕ) : ℕ := wrap64 (x <<< n) ||| (x >>> (64 - n))

/-- The four 64-bit lanes of the SipHash internal state. -/
structure SipState where
  v0 : ℕ
  v1 : ℕ
  v2 : ℕ
  v3 : ℕ

/-- One SipRound of the SipHash permutation. -/
def sipRound (s : SipState) : SipState :=
  let a0 := wrap64 (s.v0 + s.v1)
  let a1 := rotl64 s.v1 13
  let b1 := a1 ^^^ a0
  let b0 := rotl64 a0 32
  let a2 := wrap64 (s.v2 + s.v3)
  let a3 := rotl64 s.v3 16
  let b3 := a3 ^^^ a2
  let c0 := wrap64 (b0 + b3)
  let c3 := rotl64 b3 21
  let d3 := c3 ^^^ c0
  let c2 := wrap64 (a2 + b1)
  let c1 := rotl64 b1 17
  let d1 := c1 ^^^ c2
  let d2 := rotl64 c2 32
  ⟨c0, d1, d2, d3⟩

/-- SipHash compression of one message word. -/
def sipCompress (s : SipState) (m : ℕ) : SipState :=
  let s1 : SipState := { s with v3 := s.v3 ^^^ m }
  let s2 := sipRound s1
  { s2 with v0 := s2.v0 ^^^ m }

/-- Little-endian 64-bit word from at most eight bytes. -/
def leWord (bytes : List ℕ) : ℕ :=
  bytes.foldr (fun b acc => (acc <<< 8) ||| b) 0

/-- SipHash-1-3 with the all-zero key over a byte list: the algorithm
behind the Rust std DefaultHasher. -/
def siphash13 (msg : List ℕ) : ℕ :=
  let totalLen := msg.length
  let nw := totalLen / 8
  let words := (List.range nw).map (fun i => leWord ((msg.drop (8 * i)).take 8))
  let tail := msg.drop (8 * nw)
  let finalWord := leWord tail ||| ((totalLen % 256) <<< 56)
  let st0 : SipState :=
    ⟨0x736f6d6570736575, 0x646f72616e646f6d, 0x6c7967656e657261, 0x7465646279746573⟩
  let st1 := words.foldl sipCompress st0
  let st2 := sipCompress st1 finalWord
  let st3 : SipState := { st2 with v2 := st2.v2 ^^^ 0xff }
  let st4 := sipRound (sipRound (sipRound st3))
  (st4.v0 ^^^ st4.v1 ^^^ st4.v2 ^^^ st4.v3) % 2 ^ 64

/-- DefaultHasher digest of a string: Hash for str feeds the UTF-8 bytes
followed by a 0xff terminator byte into SipHash-1-3. -/
def defaultHashStr (s : String) : ℕ :=
  siphash13 (strBytes s ++ [0xff])

/-- The GraphQuery request parameters (src/main.rs lines 103-109). -/
structure GraphQuery where
  basearch : Option String
  stream : Option String
  rollout_wariness : Option String
  node_uuid : Option String

/-- u64::MAX. -/
def u64MAX : ℕ := 2 ^ 64 - 1

/-- The clamp on the identifier-derived path of compute_wariness:
scaled.max(0.000001).min(1.0) (src/main.rs lines 162-173); the constant
COMPUTED_MIN = 0.000001 is the rational one over one million. -/
def clampDerived (scaled : ℚ) : F64 :=
  ((F64.finite scaled).fmax (.finite (mkRat 1 1000000))).fmin (.finite 1)

/-- The identifier-derived wariness: DefaultHasher digest of the uuid,
scaled by u64::MAX, clamped to the interval with left endpoint 0.000001
and right endpoint 1 (src/main.rs lines 157-173).  The u64-to-f64 cast
and the division are taken exactly: scaled = digest / u64::MAX. -/
def derivedWariness (uuid : String) : F64 :=
  let digest := defaultHashStr uuid
  let scaled : ℚ := mkRat (digest : ℤ) u64MAX
  clampDerived scaled

/-- compute_wariness (src/main.rs lines 142-176): if rollout_wariness
(empty string when absent) parses as an f64, clamp it with
max(0.0).min(1.0) and return; otherwise derive the wariness from
node_uuid (empty string when absent). -/
def compute_wariness (params : GraphQuery) : F64 :=
  match parseF64 (params.rollout_wariness.getD "") with
  | some input => (input.fmax (.finite 0)).fmin (.finite 1)
  | none => derivedWariness (params.node_uuid.getD "")

/-- AppState (src/main.rs lines 98-101).  The external cbloom::Filter is
modelled at its interface as the exact set of inserted u64 digests: the
ideal, false-positive-free behaviour the claims assume. -/
structure AppState where
  population : Finset ℕ

/-- The telemetry counters and the wariness histogram observations
(src/main.rs lines 22-46). -/
structure Metrics where
  v1_graph_incoming_reqs : ℕ
  unique_ids : ℕ
  rollout_wariness_obs : List F64

/-- pe_record_metrics (src/main.rs lines 178-193): always increment the
incoming-request counter; when node_uuid is present, hash it and, if the
population filter does not contain the digest, insert it and increment
the unique-id counter. -/
def pe_record_metrics (data : AppState) (m : Metrics) (query : GraphQuery) :
    AppState × Metrics :=
  let m1 : Metrics := { m with v1_graph_incoming_reqs := m.v1_graph_incoming_reqs + 1 }
  match query.node_uuid with
  | some uuid =>
    let client_uuid := defaultHashStr uuid
    if client_uuid ∉ data.population then
      ({ data with population := insert client_uuid data.population },
       { m1 with unique_ids := m1.unique_ids + 1 })
    else
      (data, m1)
  | none => (data, m1)

/-- A node of an update graph with its optional rollout-threshold
annotation. -/
structure UpdateNode where
  id : ℕ
  threshold : Option ℚ
deriving DecidableEq

/-- An edge of an update graph with its optional rollout-threshold
annotation. -/
structure UpdateEdge where
  src : ℕ
  dst : ℕ
  threshold : Option ℚ
deriving DecidableEq

/-- An update graph: nodes and edges, each optionally annotated with a
rollout threshold. -/
structure UpdateGraph where
  nodes : List UpdateNode
  edges : List UpdateEdge
deriving DecidableEq

/-- Keep predicate of the throttling stage: an item with threshold t is
removed exactly when wariness < t; unannotated items are kept. -/
def keepItem (wariness : ℚ) : Option ℚ → Bool
  | none => true
  | some t => decide (t ≤ wariness)

/-- Modelled from the spec: commons::policy::throttle_rollouts belongs to
the commons crate of this repository, which is not present under src/.
Spec section 4.3 Stage A: for every node or edge carrying a
rollout-threshold annotation t, remove it from the result if
wariness < t; items with no annotation are always retained; nothing is
added or rewritten. -/
def throttle_rollouts (g : UpdateGraph) (wariness : ℚ) : UpdateGraph :=
  { nodes := g.nodes.filter (fun n => keepItem wariness n.threshold),
    edges := g.edges.filter (fun e => keepItem wariness e.threshold) }

/-- One round of dead-end pruning: drop every node with no outgoing edge,
together with the edges pointing into a dropped node. -/
def removeDeadendsStep (g : UpdateGraph) : UpdateGraph :=
  let isDead : UpdateNode → Bool := fun n => g.edges.all (fun e => e.src ≠ n.id)
  let deadIds := (g.nodes.filter isDead).map (fun n => n.id)
  { nodes := g.nodes.filter (fun n => ¬ isDead n),
    edges := g.edges.filter (fun e => ¬ deadIds.contains e.dst) }

/-- Fuelled iteration of dead-end pruning to a fixed point. -/
def filterDeadendsAux : ℕ → UpdateGraph → UpdateGraph
  | 0, g => g
  | fuel + 1, g =>
    let g2 := removeDeadendsStep g
    if g2 = g then g else filterDeadendsAux fuel g2

/-- Modelled from the spec: commons::policy::filter_deadends belongs to
the commons crate of this repository, which is not present under src/.
Spec section 4.3 Stage B: iteratively remove every node left with no
outgoing edge, and its inbound edges, until a fixed point; each
productive round removes at least one node, so fuel equal to the node
count suffices. -/
def filter_deadends (g : UpdateGraph) : UpdateGraph :=
  filterDeadendsAux (g.nodes.length + 1) g

/-- The distinguishable steps the request handler performs, in the order
the embedding logs them. -/
inductive Step where
  | recordMetrics : Step
  | computeWariness : Step
  | fetchGraph : Step
  | throttle : Step
  | deadends : Step
  | serialize : Step
deriving DecidableEq

/-- pe_serve_graph (src/main.rs lines 111-138), with the external
fetch collaborator (utils::fetch_graph_from_gb, whose source file is not
present under src/) passed in as a function of (stream, basearch) that
may fail.  The embedding returns the response outcome, the updated
shared state and metrics, and the trace of performed steps in execution
order: record metrics, compute wariness (observed in the histogram),
fetch the raw graph, then on success throttle, prune dead ends and
serialize. -/
def pe_serve_graph (fetch : String → String → Except String UpdateGraph)
    (data : AppState) (m : Metrics) (query : GraphQuery) :
    Except String UpdateGraph × AppState × Metrics × List Step :=
  let p := pe_record_metrics data m query
  let basearch := query.basearch.getD ""
  let stream := query.stream.getD ""
  let wariness := compute_wariness query
  let m3 : Metrics :=
    { p.2 with rollout_wariness_obs := p.2.rollout_wariness_obs ++ [wariness] }
  match fetch stream basearch with
  | .error e =>
    (.error e, p.1, m3,
     [Step.recordMetrics, Step.computeWariness, Step.fetchGraph])
  | .ok cached_graph =>
    let throttled_graph := throttle_rollouts cached_graph wariness.toRat
    let final_graph := filter_deadends throttled_graph
    (.ok final_graph, p.1, m3,
     [Step.recordMetrics, Step.computeWariness, Step.fetchGraph,
      Step.throttle, Step.deadends, Step.serialize])

/-- A concrete update graph for counterexample instances. -/
def exGraph : UpdateGraph :=
  ⟨[⟨0, none⟩, ⟨1, some (mkRat 1 2)⟩], [⟨0, 1, some (mkRat 1 2)⟩]⟩

/-- A concrete shared state for counterexample instances. -/
def exState : AppState := ⟨∅⟩

/-- Concrete metrics for counterexample instances. -/
def exMetrics : Metrics := ⟨0, 0, []⟩

/-- A concrete query for counterexample instances. -/
def exQuery : GraphQuery := ⟨none, none, none, some "some-node"⟩

/-! ## Helper lemmas -/

/-- mkRat 1 1000000 is the rational one over one million. -/
theorem mkRat_millionth : (mkRat 1 1000000 : ℚ) = 1 / 1000000 := by
  rw [Rat.mkRat_eq_divInt, Rat.divInt_eq_div]
  norm_num

/-- The derived-path clamp always produces a finite value in the closed
interval from 0.000001 to 1. -/
theorem clampDerived_spec (s : ℚ) :
    ∃ v : ℚ, clampDerived s = .finite v ∧ 1 / 1000000 ≤ v ∧ v ≤ 1 := by
  refine ⟨min (max s (mkRat 1 1000000)) 1, rfl, ?_, min_le_right _ _⟩
  refine le_min ?_ (by norm_num)
  rw [← mkRat_millionth]
  exact le_max_right _ _

/-- Unfolding compute_wariness on the override path. -/
theorem compute_wariness_of_parse (q : GraphQuery) (x : F64)
    (h : parseF64 (q.rollout_wariness.getD "") = some x) :
    compute_wariness q = (x.fmax (.finite 0)).fmin (.finite 1) := by
  unfold compute_wariness
  rw [h]

/-- Unfolding compute_wariness on the derived path. -/
theorem compute_wariness_of_parse_fail (q : GraphQuery)
    (h : parseF64 (q.rollout_wariness.getD "") = none) :
    compute_wariness q = derivedWariness (q.node_uuid.getD "") := by
  unfold compute_wariness
  rw [h]

/-- The identifier-derived wariness is finite and lies between 0.000001
and 1. -/
theorem derivedWariness_spec (u : String) :
    ∃ v : ℚ, derivedWariness u = .finite v ∧ 1 / 1000000 ≤ v ∧ v ≤ 1 :=
  clampDerived_spec _

/-- The keep predicate of the throttling stage is monotone in
wariness. -/
theorem keepItem_mono {w1 w2 : ℚ} (h : w1 ≤ w2) (t : Option ℚ) :
    keepItem w1 t = true → keepItem w2 t = true := by
  cases t with
  | none => simp [keepItem]
  | some t =>
    simp only [keepItem, decide_eq_true_eq]
    exact fun ht => le_trans ht h

/-! ## Claim theorems -/

/-- Claim C1: whenever the rollout_wariness string parses as a decimal
number, compute_wariness returns exactly that parsed value clamped with
max(0.0).min(1.0); the node_uuid identifier has no influence on the
result; in particular the override 1.5 yields 1.0 and the override -0.2
yields 0.0 for every identifier. -/
theorem compute_wariness_override_clamps (q : GraphQuery) (x : F64)
    (h : parseF64 (q.rollout_wariness.getD "") = some x) :
    compute_wariness q = (x.fmax (.finite 0)).fmin (.finite 1)
    ∧ (∀ u : Option String,
        compute_wariness { q with node_uuid := u } = compute_wariness q)
    ∧ (∀ b s u, compute_wariness ⟨b, s, some "1.5", u⟩ = .finite 1)
    ∧ (∀ b s u, compute_wariness ⟨b, s, some "-0.2", u⟩ = .finite 0) := by
  refine ⟨compute_wariness_of_parse q x h, ?_, ?_, ?_⟩
  · intro u
    rw [compute_wariness_of_parse { q with node_uuid := u } x h,
      compute_wariness_of_parse q x h]
  · intro b s u
    have h15 : parseF64 ((some "1.5").getD "") = some (.finite (mkRat 15 10)) := by decide
    rw [compute_wariness_of_parse ⟨b, s, some "1.5", u⟩ _ h15]
    decide
  · intro b s u
    have h02 : parseF64 ((some "-0.2").getD "") = some (.finite (mkRat (-2) 10)) := by decide
    rw [compute_wariness_of_parse ⟨b, s, some "-0.2", u⟩ _ h02]
    decide

/-- Witness for claim C1 at the concrete override 0.5 with identifier
abc. -/
theorem compute_wariness_override_clamps_witness :
    parseF64 (((⟨none, none, some "0.5", some "abc"⟩ : GraphQuery).rollout_wariness).getD "")
      = some (.finite (mkRat 5 10))
    ∧ (compute_wariness ⟨none, none, some "0.5", some "abc"⟩
        = ((F64.finite (mkRat 5 10)).fmax (.finite 0)).fmin (.finite 1)
      ∧ (∀ u : Option String,
          compute_wariness { (⟨none, none, some "0.5", some "abc"⟩ : GraphQuery) with node_uuid := u }
            = compute_wariness ⟨none, none, some "0.5", some "abc"⟩)
      ∧ (∀ b s u, compute_wariness ⟨b, s, some "1.5", u⟩ = .finite 1)
      ∧ (∀ b s u, compute_wariness ⟨b, s, some "-0.2", u⟩ = .finite 0)) :=
  ⟨by decide, compute_wariness_override_clamps _ (.finite (mkRat 5 10)) (by decide)⟩

/-- Claim C2: when the rollout_wariness string does not parse, the
result is the identifier-derived value, finite and clamped between the
minimum 0.000001 (strictly above zero, so 0.0 is never returned on the
derived path) and the maximum 1.0; the upper clamp attains 1.0 on a
scaled digest of 1. -/
theorem compute_wariness_derived_in_range (q : GraphQuery)
    (h : parseF64 (q.rollout_wariness.getD "") = none) :
    (∃ v : ℚ, compute_wariness q = .finite v
      ∧ 1 / 1000000 ≤ v ∧ 0 < v ∧ v ≤ 1)
    ∧ clampDerived 1 = .finite 1 := by
  constructor
  · obtain ⟨v, hv, h1, h2⟩ := derivedWariness_spec (q.node_uuid.getD "")
    refine ⟨v, ?_, h1, lt_of_lt_of_le (by norm_num) h1, h2⟩
    rw [compute_wariness_of_parse_fail q h, hv]
  · decide

/-- Witness for claim C2 at a query with no override and identifier
node. -/
theorem compute_wariness_derived_in_range_witness :
    parseF64 (((⟨none, none, none, some "node"⟩ : GraphQuery).rollout_wariness).getD "") = none
    ∧ ((∃ v : ℚ, compute_wariness ⟨none, none, none, some "node"⟩ = .finite v
        ∧ 1 / 1000000 ≤ v ∧ 0 < v ∧ v ≤ 1)
      ∧ clampDerived 1 = .finite 1) :=
  ⟨by decide, compute_wariness_derived_in_range _ (by decide)⟩

/-- Claim C3: compute_wariness is a pure function of the pair
(rollout_wariness, node_uuid): two queries agreeing on those two fields
receive the identical value, whatever their other fields. -/
theorem compute_wariness_deterministic (q1 q2 : GraphQuery)
    (hrw : q1.rollout_wariness = q2.rollout_wariness)
    (hnu : q1.node_uuid = q2.node_uuid) :
    compute_wariness q1 = compute_wariness q2 := by
  simp only [compute_wariness, hrw, hnu]

/-- Witness for claim C3: two queries differing in basearch and stream
but agreeing on the wariness-relevant fields. -/
theorem compute_wariness_deterministic_witness :
    (⟨some "x86_64", none, none, some "n"⟩ : GraphQuery).rollout_wariness
      = (⟨none, some "stable", none, some "n"⟩ : GraphQuery).rollout_wariness
    ∧ (⟨some "x86_64", none, none, some "n"⟩ : GraphQuery).node_uuid
      = (⟨none, some "stable", none, some "n"⟩ : GraphQuery).node_uuid
    ∧ compute_wariness ⟨some "x86_64", none, none, some "n"⟩
      = compute_wariness ⟨none, some "stable", none, some "n"⟩ :=
  ⟨rfl, rfl, compute_wariness_deterministic _ _ rfl rfl⟩

/-- Claim C4: rollout throttling is monotone in wariness: for w1 at most
w2, every node and edge kept at w1 is kept at w2; and for every
wariness the result is a sublist of the input graph, so throttling never
adds nodes or edges and never rewrites annotations. -/
theorem throttle_rollouts_monotone (g : UpdateGraph) (w1 w2 : ℚ) (h : w1 ≤ w2) :
    (throttle_rollouts g w1).nodes ⊆ (throttle_rollouts g w2).nodes
    ∧ (throttle_rollouts g w1).edges ⊆ (throttle_rollouts g w2).edges
    ∧ (∀ w : ℚ, (throttle_rollouts g w).nodes.Sublist g.nodes
        ∧ (throttle_rollouts g w).edges.Sublist g.edges) := by
  refine ⟨?_, ?_, fun w => ⟨List.filter_sublist _, List.filter_sublist _⟩⟩
  · intro x hx
    rw [throttle_rollouts] at hx ⊢
    rw [List.mem_filter] at hx ⊢
    exact ⟨hx.1, keepItem_mono h _ hx.2⟩
  · intro x hx
    rw [throttle_rollouts] at hx ⊢
    rw [List.mem_filter] at hx ⊢
    exact ⟨hx.1, keepItem_mono h _ hx.2⟩

/-- Witness for claim C4 at wariness values 0 and 1 on a concrete
graph. -/
theorem throttle_rollouts_monotone_witness :
    (0 : ℚ) ≤ 1
    ∧ ((throttle_rollouts exGraph 0).nodes ⊆ (throttle_rollouts exGraph 1).nodes
      ∧ (throttle_rollouts exGraph 0).edges ⊆ (throttle_rollouts exGraph 1).edges
      ∧ (∀ w : ℚ, (throttle_rollouts exGraph w).nodes.Sublist exGraph.nodes
          ∧ (throttle_rollouts exGraph w).edges.Sublist exGraph.edges)) :=
  ⟨by norm_num, throttle_rollouts_monotone exGraph 0 1 (by norm_num)⟩

/-- Claim C5: on the ideal population filter, the first record call for
a present node_uuid inserts its digest and increments the unique-client
counter, and a second sequential call with the same node_uuid leaves the
counter and the population unchanged; more generally any call whose
digest is already in the population changes nothing except the
incoming-request counter. -/
theorem pe_record_metrics_counts_unique_once (data : AppState) (m : Metrics)
    (uuid : String) (q : GraphQuery) (hq : q.node_uuid = some uuid)
    (hfresh : defaultHashStr uuid ∉ data.population) :
    (pe_record_metrics data m q).2.unique_ids = m.unique_ids + 1
    ∧ (pe_record_metrics data m q).1.population
        = insert (defaultHashStr uuid) data.population
    ∧ (pe_record_metrics (pe_record_metrics data m q).1
        (pe_record_metrics data m q).2 q).2.unique_ids = m.unique_ids + 1
    ∧ (pe_record_metrics (pe_record_metrics data m q).1
        (pe_record_metrics data m q).2 q).1.population
        = (pe_record_metrics data m q).1.population
    ∧ (∀ (d2 : AppState) (m2 : Metrics), defaultHashStr uuid ∈ d2.population →
        pe_record_metrics d2 m2 q =
          (d2, { m2 with v1_graph_incoming_reqs := m2.v1_graph_incoming_reqs + 1 })) := by
  have hsub : ∀ (d2 : AppState) (m2 : Metrics), defaultHashStr uuid ∈ d2.population →
      pe_record_metrics d2 m2 q =
        (d2, { m2 with v1_graph_incoming_reqs := m2.v1_graph_incoming_reqs + 1 }) := by
    intro d2 m2 hmem
    simp [pe_record_metrics, hq, hmem]
  have e1 : pe_record_metrics data m q =
      ({ data with population := insert (defaultHashStr uuid) data.population },
       { v1_graph_incoming_reqs := m.v1_graph_incoming_reqs + 1,
         unique_ids := m.unique_ids + 1,
         rollout_wariness_obs := m.rollout_wariness_obs }) := by
    simp [pe_record_metrics, hq, hfresh]
  refine ⟨by rw [e1], by rw [e1], ?_, ?_, hsub⟩
  · rw [e1, hsub _ _ (Finset.mem_insert_self _ _)]
  · rw [e1, hsub _ _ (Finset.mem_insert_self _ _)]

/-- Witness for claim C5 on a fresh tracker and the identifier abc. -/
theorem pe_record_metrics_counts_unique_once_witness :
    (⟨none, none, none, some "abc"⟩ : GraphQuery).node_uuid = some "abc"
    ∧ defaultHashStr "abc" ∉ (⟨∅⟩ : AppState).population
    ∧ ((pe_record_metrics ⟨∅⟩ ⟨0, 0, []⟩ ⟨none, none, none, some "abc"⟩).2.unique_ids
        = (⟨0, 0, []⟩ : Metrics).unique_ids + 1
      ∧ (pe_record_metrics ⟨∅⟩ ⟨0, 0, []⟩ ⟨none, none, none, some "abc"⟩).1.population
          = insert (defaultHashStr "abc") (⟨∅⟩ : AppState).population
      ∧ (pe_record_metrics
          (pe_record_metrics ⟨∅⟩ ⟨0, 0, []⟩ ⟨none, none, none, some "abc"⟩).1
          (pe_record_metrics ⟨∅⟩ ⟨0, 0, []⟩ ⟨none, none, none, some "abc"⟩).2
          ⟨none, none, none, some "abc"⟩).2.unique_ids
          = (⟨0, 0, []⟩ : Metrics).unique_ids + 1
      ∧ (pe_record_metrics
          (pe_record_metrics ⟨∅⟩ ⟨0, 0, []⟩ ⟨none, none, none, some "abc"⟩).1
          (pe_record_metrics ⟨∅⟩ ⟨0, 0, []⟩ ⟨none, none, none, some "abc"⟩).2
          ⟨none, none, none, some "abc"⟩).1.population
          = (pe_record_metrics ⟨∅⟩ ⟨0, 0, []⟩ ⟨none, none, none, some "abc"⟩).1.population
      ∧ (∀ (d2 : AppState) (m2 : Metrics),
          defaultHashStr "abc" ∈ d2.population →
          pe_record_metrics d2 m2 ⟨none, none, none, some "abc"⟩ =
            (d2, { m2 with v1_graph_incoming_reqs := m2.v1_graph_incoming_reqs + 1 }))) :=
  ⟨rfl, Finset.not_mem_empty _,
    pe_record_metrics_counts_unique_once ⟨∅⟩ ⟨0, 0, []⟩ "abc" _ rfl
      (Finset.not_mem_empty _)⟩

/-- Claim C10: when node_uuid is absent the record call leaves the
population and the unique-client counter untouched and only increments
the incoming-request counter. -/
theorem pe_record_metrics_absent_uuid_frame (data : AppState) (m : Metrics)
    (q : GraphQuery) (h : q.node_uuid = none) :
    pe_record_metrics data m q =
      (data, { m with v1_graph_incoming_reqs := m.v1_graph_incoming_reqs + 1 }) := by
  simp [pe_record_metrics, h]

/-- Witness for claim C10 at a query with every field absent. -/
theorem pe_record_metrics_absent_uuid_frame_witness :
    (⟨none, none, none, none⟩ : GraphQuery).node_uuid = none
    ∧ pe_record_metrics ⟨∅⟩ ⟨5, 7, []⟩ ⟨none, none, none, none⟩ =
        (⟨∅⟩, { (⟨5, 7, []⟩ : Metrics) with
          v1_graph_incoming_reqs := (⟨5, 7, []⟩ : Metrics).v1_graph_incoming_reqs + 1 }) :=
  ⟨rfl, pe_record_metrics_absent_uuid_frame ⟨∅⟩ ⟨5, 7, []⟩ _ rfl⟩

/-- Claim C6 counterexample: the claimed step order — compute wariness
before recording the client — is false at a concrete request: the
handler records metrics (including the population tracker) first and
computes wariness second, as the concrete trace shows. -/
theorem pe_serve_graph_claimed_order_false :
    (pe_serve_graph (fun _ _ => .ok exGraph) exState exMetrics exQuery).2.2.2 =
      [Step.recordMetrics, Step.computeWariness, Step.fetchGraph,
       Step.throttle, Step.deadends, Step.serialize]
    ∧ (pe_serve_graph (fun _ _ => .ok exGraph) exState exMetrics exQuery).2.2.2 ≠
      [Step.computeWariness, Step.recordMetrics, Step.fetchGraph,
       Step.throttle, Step.deadends, Step.serialize] :=
  ⟨rfl, by decide⟩

/-- Claim C6 as amended: for every request the handler performs the core
steps in the order: record the client in the population tracker (with
the request counter), then compute wariness, then fetch the raw graph,
then — when the fetch succeeds — throttle, prune dead ends and
serialize. -/
theorem pe_serve_graph_records_then_computes
    (fetch : String → String → Except String UpdateGraph)
    (data : AppState) (m : Metrics) (q : GraphQuery) :
    (pe_serve_graph fetch data m q).2.2.2 =
      match fetch (q.stream.getD "") (q.basearch.getD "") with
      | .error _ => [Step.recordMetrics, Step.computeWariness, Step.fetchGraph]
      | .ok _ => [Step.recordMetrics, Step.computeWariness, Step.fetchGraph,
                  Step.throttle, Step.deadends, Step.serialize] := by
  cases h : fetch (q.stream.getD "") (q.basearch.getD "") <;>
    simp [pe_serve_graph, h]

/-- Claim C7: a rollout_wariness value that fails to parse is never an
error: compute_wariness falls back to the wariness derived from
node_uuid, and compute_wariness returns a value on every possible
query. -/
theorem compute_wariness_fallback_total (q : GraphQuery)
    (h : parseF64 (q.rollout_wariness.getD "") = none) :
    compute_wariness q = derivedWariness (q.node_uuid.getD "")
    ∧ ∀ p : GraphQuery, ∃ w : F64, compute_wariness p = w :=
  ⟨compute_wariness_of_parse_fail q h, fun _ => ⟨_, rfl⟩⟩

/-- Witness for claim C7 at a malformed override string. -/
theorem compute_wariness_fallback_total_witness :
    parseF64 (((⟨none, none, some "not-a-number", some "n"⟩ : GraphQuery).rollout_wariness).getD "")
      = none
    ∧ (compute_wariness ⟨none, none, some "not-a-number", some "n"⟩
        = derivedWariness (((⟨none, none, some "not-a-number", some "n"⟩ : GraphQuery).node_uuid).getD "")
      ∧ ∀ p : GraphQuery, ∃ w : F64, compute_wariness p = w) :=
  ⟨by decide, compute_wariness_fallback_total _ (by decide)⟩

/-- Claim C8: when the upstream fetch fails the handler returns that
error and the policy pipeline steps never run; when the fetch succeeds
the response is exactly the fully filtered graph, dead-end pruning
applied after throttling. -/
theorem pe_serve_graph_fetch_boundary (e : String) (g : UpdateGraph)
    (data : AppState) (m : Metrics) (q : GraphQuery) :
    ((pe_serve_graph (fun _ _ => .error e) data m q).1 = .error e
      ∧ Step.throttle ∉ (pe_serve_graph (fun _ _ => .error e) data m q).2.2.2
      ∧ Step.deadends ∉ (pe_serve_graph (fun _ _ => .error e) data m q).2.2.2)
    ∧ (pe_serve_graph (fun _ _ => .ok g) data m q).1 =
        .ok (filter_deadends (throttle_rollouts g (compute_wariness q).toRat)) := by
  refine ⟨⟨rfl, ?_, ?_⟩, rfl⟩
  · show Step.throttle ∉ [Step.recordMetrics, Step.computeWariness, Step.fetchGraph]
    decide
  · show Step.deadends ∉ [Step.recordMetrics, Step.computeWariness, Step.fetchGraph]
    decide

/-- Claim C9: override strings parsing to non-finite floats are still
overrides and the clamp maps them into the unit interval: inf yields
1.0, negative inf yields 0.0, and NaN yields 0.0 (Rust f64 max and min
return the non-NaN operand); moreover compute_wariness returns a finite
value in the closed unit interval on every query. -/
theorem compute_wariness_nonfinite_overrides :
    (∀ b s u, compute_wariness ⟨b, s, some "inf", u⟩ = .finite 1)
    ∧ (∀ b s u, compute_wariness ⟨b, s, some "-inf", u⟩ = .finite 0)
    ∧ (∀ b s u, compute_wariness ⟨b, s, some "NaN", u⟩ = .finite 0)
    ∧ (∀ q : GraphQuery, ∃ x : ℚ, compute_wariness q = .finite x ∧ 0 ≤ x ∧ x ≤ 1) := by
  refine ⟨?_, ?_, ?_, ?_⟩
  · intro b s u
    have hp : parseF64 ((some "inf").getD "") = some (.inf false) := by decide
    rw [compute_wariness_of_parse ⟨b, s, some "inf", u⟩ _ hp]
    decide
  · intro b s u
    have hp : parseF64 ((some "-inf").getD "") = some (.inf true) := by decide
    rw [compute_wariness_of_parse ⟨b, s, some "-inf", u⟩ _ hp]
    decide
  · intro b s u
    have hp : parseF64 ((some "NaN").getD "") = some .nan := by decide
    rw [compute_wariness_of_parse ⟨b, s, some "NaN", u⟩ _ hp]
    decide
  · intro q
    cases hp : parseF64 (q.rollout_wariness.getD "") with
    | none =>
      obtain ⟨v, hv, h1, h2⟩ := derivedWariness_spec (q.node_uuid.getD "")
      refine ⟨v, ?_, le_trans (by norm_num) h1, h2⟩
      rw [compute_wariness_of_parse_fail q hp, hv]
    | some f =>
      have hc := compute_wariness_of_parse q f hp
      cases f with
      | nan =>
        refine ⟨0, ?_, le_refl 0, by norm_num⟩
        rw [hc]
        rfl
      | inf neg =>
        cases neg with
        | false =>
          refine ⟨1, ?_, by norm_num, le_refl 1⟩
          rw [hc]
          rfl
        | true =>
          refine ⟨0, ?_, le_refl 0, by norm_num⟩
          rw [hc]
          rfl
      | finite v =>
        refine ⟨min (max v 0) 1, ?_, le_min (le_max_right _ _) (by norm_num),
          min_le_right _ _⟩
        rw [hc]
        rfl

end Fcos
